import Mathlib

/-!
Shallow embedding of the go-http-tunnel repository core
(forwardingproxy.go, utils.go, and the server/accept-loop code),
with theorems checking the natural-language specification against it.

Go strings are modelled as byte lists (`List Nat`, each element a byte
value); Go booleans as `Bool`; fallible operations as `Option`.
External I/O results (accept errors, dial results, read results,
probe responses) are passed in as explicit oracle parameters, so every
definition is executable.
-/

namespace Tunnel

/-- Byte list of an ASCII string literal (models a Go string constant). -/
def ascii (s : String) : List Nat := s.data.map Char.toNat

/-- Models strings.IndexByte: first index of byte b, none when absent
(Go returns -1). -/
def indexByte (l : List Nat) (b : Nat) : Option Nat :=
  l.findIdx? (fun c => c == b)

/-- Models strings.Contains s sub (argument order: pattern first, then the
string searched, so that the recursion is structural): true iff sub occurs
as a contiguous substring of the second argument. -/
def goContains (sub : List Nat) : List Nat → Bool
  | [] => sub.isEmpty
  | c :: rest => sub.isPrefixOf (c :: rest) || goContains sub rest

/-- Value of one base64 alphabet character (A-Z, a-z, 0-9, plus, slash),
as in the Go encoding/base64 standard encoding table. -/
def b64Val (c : Nat) : Option Nat :=
  if 65 ≤ c ∧ c ≤ 90 then some (c - 65)
  else if 97 ≤ c ∧ c ≤ 122 then some (c - 97 + 26)
  else if 48 ≤ c ∧ c ≤ 57 then some (c - 48 + 52)
  else if c = 43 then some 62
  else if c = 47 then some 63
  else none

/-- Decode whole base64 quantums of four characters; byte 61 is the
padding character, legal only in the final quantum (models the per-quantum
loop of Go base64.StdEncoding decoding). -/
def b64Blocks : List Nat → Option (List Nat)
  | [] => some []
  | c1 :: c2 :: c3 :: c4 :: rest =>
    match b64Val c1, b64Val c2 with
    | some v1, some v2 =>
      if c3 == 61 then
        if c4 == 61 && rest.isEmpty then some [v1 * 4 + v2 / 16] else none
      else
        match b64Val c3 with
        | some v3 =>
          if c4 == 61 then
            if rest.isEmpty then some [v1 * 4 + v2 / 16, (v2 % 16) * 16 + v3 / 4]
            else none
          else
            match b64Val c4 with
            | some v4 =>
              match b64Blocks rest with
              | some bs =>
                some ((v1 * 4 + v2 / 16) :: ((v2 % 16) * 16 + v3 / 4) ::
                      ((v3 % 4) * 64 + v4) :: bs)
              | none => none
            | none => none
        | none => none
    | _, _ => none
  | _ => none

/-- Models base64.StdEncoding.DecodeString: carriage returns and newlines
are skipped, the rest must be full four-character quantums over the
standard alphabet, with padding only at the end; none models the
CorruptInputError failure. -/
def base64StdDecode (s : List Nat) : Option (List Nat) :=
  b64Blocks (s.filter (fun c => !(c == 10 || c == 13)))

/-- Result triple of parseBasicProxyAuth (username, password, ok); the Go
function naked-returns empty strings and false on every failure path. -/
structure AuthResult where
  username : List Nat
  password : List Nat
  ok : Bool
deriving DecidableEq

/-- parseBasicProxyAuth from forwardingproxy.go: require the Basic prefix,
base64-decode the suffix, split at the first colon byte (58). -/
def parseBasicProxyAuth (authz : List Nat) : AuthResult :=
  if (ascii ("Basic ")).isPrefixOf authz then
    match base64StdDecode (authz.drop (ascii ("Basic ")).length) with
    | none => ⟨[], [], false⟩
    | some c =>
      match indexByte c 58 with
      | none => ⟨[], [], false⟩
      | some s => ⟨c.take s, c.drop (s + 1), true⟩
  else ⟨[], [], false⟩

/-- Modelled from the spec: the proto package is not under src/; the spec
data model lists Protocol as an enum of HTTP, HTTP-CONNECT and raw
TCP-over-listener, distinct values (proto.HTTPProtocol, proto.HTTPCONNECT,
and the listener network string). -/
inductive Protocol
  | http
  | httpConnect
  | tcp
deriving DecidableEq

/-- Modelled from the spec: the proto package Action enum; the only action
is RequestClientSession. -/
inductive Action
  | requestClientSession
deriving DecidableEq

/-- Modelled from the spec: proto.ControlMessage with the fields the spec
lists: Action, Protocol (named ForwardedProto in forwardingproxy.go),
ForwardedHost, ForwardedFor, ForwardedBy, URLPath, RemoteAddr. Unset
fields default to the empty string. -/
structure ControlMessage where
  action : Action := Action.requestClientSession
  protocol : Protocol := Protocol.http
  forwardedHost : List Nat := []
  forwardedFor : List Nat := []
  forwardedBy : List Nat := []
  urlPath : List Nat := []
  remoteAddr : List Nat := []
deriving DecidableEq

/-- The parts of a Go http.Request read by this code: method, Host,
URL.Scheme, URL.Host, URL.Path, RemoteAddr, the Proxy-Authorization
header (empty list models an absent header, as Header.Get returns the
empty string), and the X-Forwarded-For header value. -/
structure Request where
  method : List Nat := []
  host : List Nat := []
  urlScheme : List Nat := []
  urlHost : List Nat := []
  urlPath : List Nat := []
  remoteAddr : List Nat := []
  proxyAuthorization : List Nat := []
  xForwardedFor : List Nat := []
deriving DecidableEq

/-- The ForwardingProxy fields that drive the modelled control flow:
the configured proxy credentials (empty string means unset). -/
structure ForwardingProxy where
  authUser : List Nat := []
  authPass : List Nat := []
deriving DecidableEq

/-- The auth rejection condition inside ForwardingProxy.ServeHTTP:
user, pass, ok := parseBasicProxyAuth(header); !ok or user or pass
differs from the configured values. -/
def authRejected (p : ForwardingProxy) (r : Request) : Bool :=
  let a := parseBasicProxyAuth r.proxyAuthorization
  !a.ok || a.username != p.authUser || a.password != p.authPass

/-- Outcome of ForwardingProxy.ServeHTTP: answer 407 and return, hand the
request to the ForwardingHTTPProxy reverse proxy, or enter handleTunneling
(whose own behavior is modelled separately as a trace). -/
inductive ServeOutcome
  | proxyAuthRequired
  | forwardedHTTP
  | tunneled
deriving DecidableEq

/-- The scheme dispatch at the end of ForwardingProxy.ServeHTTP. -/
def serveScheme (r : Request) : ServeOutcome :=
  if r.urlScheme == ascii ("http") then ServeOutcome.forwardedHTTP
  else ServeOutcome.tunneled

/-- ForwardingProxy.ServeHTTP from forwardingproxy.go: when both AuthUser
and AuthPass are configured, reject with 407 unless the header parses to
exactly those credentials; then dispatch on the URL scheme. -/
def ForwardingProxy.ServeHTTP (p : ForwardingProxy) (r : Request) : ServeOutcome :=
  if p.authUser != [] && p.authPass != [] then
    if authRejected p r then ServeOutcome.proxyAuthRequired
    else serveScheme r
  else serveScheme r

/-- Oracle inputs for ForwardingProxy.Proxy: whether the sink type-asserts
to http.ResponseWriter (failure is only logged, the code continues), and
the result of http.ReadRequest on the source stream. -/
structure ProxyEnv where
  wIsResponseWriter : Bool := true
  readRequest : Option Request := none

/-- Outcome of ForwardingProxy.Proxy: reject before any write (unsupported
protocol or unreadable request), or run ServeHTTP on the rebuilt request. -/
inductive ProxyOutcome
  | rejectedUnsupportedProto
  | rejectedReadError
  | handled (o : ServeOutcome)
deriving DecidableEq

/-- Modelled from the spec: setXForwardedFor (not under src/) sets the
forwarded-for header of the reconstructed request from
ControlMessage.RemoteAddr. -/
def setXForwardedFor (r : Request) (remoteAddr : List Nat) : Request :=
  { r with xForwardedFor := remoteAddr }

/-- ForwardingProxy.Proxy from forwardingproxy.go: the switch on
msg.ForwardedProto admits only proto.HTTPCONNECT and logs and returns on
every other value; then http.ReadRequest, setXForwardedFor, the URL host
rewrite to msg.ForwardedHost, and ServeHTTP. -/
def ForwardingProxy.Proxy (p : ForwardingProxy) (env : ProxyEnv)
    (msg : ControlMessage) : ProxyOutcome :=
  if msg.protocol != Protocol.httpConnect then
    ProxyOutcome.rejectedUnsupportedProto
  else
    match env.readRequest with
    | none => ProxyOutcome.rejectedReadError
    | some req =>
      ProxyOutcome.handled
        (ForwardingProxy.ServeHTTP p
          { setXForwardedFor req msg.remoteAddr with urlHost := msg.forwardedHost })

/-- Observable events of ForwardingProxy.handleTunneling. -/
inductive TunnelEv
  | httpError (status : Nat)
  | setDeadlines
  | writeResp (status : Nat)
  | flush
  | transferDownstream
  | transferUpstream
  | closeDest
  | closeSrc
deriving DecidableEq

/-- Tiny fork-join process syntax for modelling the goroutine structure of
handleTunneling: sequencing, one parallel composition, atomic events. -/
inductive Proc
  | act (e : TunnelEv)
  | seq (p q : Proc)
  | par (p q : Proc)
deriving DecidableEq

/-- All interleavings of two event lists, with explicit fuel so that the
recursion is structural (fuel at least the sum of lengths is exact). -/
def interleaveF : Nat → List TunnelEv → List TunnelEv → List (List TunnelEv)
  | 0, xs, ys => [xs ++ ys]
  | _ + 1, [], ys => [ys]
  | _ + 1, x :: xs, [] => [x :: xs]
  | n + 1, x :: xs, y :: ys =>
      (interleaveF n xs (y :: ys)).map (fun t => x :: t) ++
      (interleaveF n (x :: xs) ys).map (fun t => y :: t)

/-- Concatenation of the images of a list function (List.bind written out
so every use kernel-reduces). -/
def listConcatMap {α β : Type} (f : α → List β) : List α → List β
  | [] => []
  | x :: xs => f x ++ listConcatMap f xs

/-- All linearizations of a process: a sequential composition concatenates,
a parallel composition interleaves. -/
def traces : Proc → List (List TunnelEv)
  | Proc.act e => [[e]]
  | Proc.seq p q =>
      listConcatMap (fun a => (traces q).map (fun b => a ++ b)) (traces p)
  | Proc.par p q =>
      listConcatMap
        (fun a => listConcatMap (fun b => interleaveF (a.length + b.length) a b)
                    (traces q))
        (traces p)

/-- a occurs strictly before b in trace t (both present). -/
def eventsBefore (t : List TunnelEv) (a b : TunnelEv) : Bool :=
  match t.findIdx? (fun e => e == a), t.findIdx? (fun e => e == b) with
  | some i, some j => Nat.blt i j
  | _, _ => false

/-- ForwardingProxy.handleTunneling from forwardingproxy.go as a process:
reject non-CONNECT with 405; dial failure answers 503 (dialOk is the
oracle for net.DialTimeout); on success set destination deadlines, write
the 200 response, flush, run the two transfer directions in parallel
(one in a fresh goroutine, one inline, joined on the done channel), then
close the destination connection and the source stream. -/
def ForwardingProxy.handleTunneling (r : Request) (dialOk : Bool) : Proc :=
  if r.method != ascii ("CONNECT") then Proc.act (TunnelEv.httpError 405)
  else if !dialOk then Proc.act (TunnelEv.httpError 503)
  else
    Proc.seq (Proc.act TunnelEv.setDeadlines)
      (Proc.seq (Proc.act (TunnelEv.writeResp 200))
        (Proc.seq (Proc.act TunnelEv.flush)
          (Proc.seq
            (Proc.par (Proc.act TunnelEv.transferDownstream)
              (Proc.act TunnelEv.transferUpstream))
            (Proc.seq (Proc.act TunnelEv.closeDest)
              (Proc.act TunnelEv.closeSrc)))))

/-- Close and half-close capabilities of a transfer endpoint: whether its
dynamic type implements the closeWriter and closeReader interfaces. -/
structure TEndpoint where
  closeWriterCap : Bool
  closeReaderCap : Bool
deriving DecidableEq

/-- Observable events of the transfer function in utils.go. -/
inductive TransferEv
  | logCopyError (e : List Nat)
  | closeWriteDst
  | closeDstFull
  | closeReadSrc
  | closeSrcFull
  | logCopied (n : Nat) (side : List Nat)
deriving DecidableEq

/-- transfer from utils.go: io.Copy yields n bytes and possibly an error
(oracle copyErr); an error is only logged; then the destination is
half-closed for writing when it supports it (and never fully closed by
transfer), and the source is half-closed for reading when supported,
otherwise fully closed; finally the byte count is logged. -/
def transfer (side : List Nat) (dst src : TEndpoint) (n : Nat)
    (copyErr : Option (List Nat)) : List TransferEv :=
  (match copyErr with
   | some e => [TransferEv.logCopyError e]
   | none => []) ++
  (if dst.closeWriterCap then [TransferEv.closeWriteDst] else []) ++
  (if src.closeReaderCap then [TransferEv.closeReadSrc]
   else [TransferEv.closeSrcFull]) ++
  [TransferEv.logCopied n side]

/-- Log events of transfer, as opposed to close effects. -/
def isLogEv : TransferEv → Bool
  | TransferEv.logCopyError _ => true
  | TransferEv.logCopied _ _ => true
  | _ => false

/-- A logical destination key (a Go host string). -/
abbrev Host := List Nat

/-- Modelled from the spec: the connection registry (connPool, not under
src/) is an in-memory table from host key to the live tunnel connection;
connections are identified by number here. -/
abbrev Registry := List (Host × Nat)

/-- Modelled from the spec: Add registers conn as the live tunnel for
host, replacing any prior entry for the same host (last-writer-wins). -/
def registryAdd (reg : Registry) (host : Host) (conn : Nat) : Registry :=
  (host, conn) :: reg.filter (fun e => e.1 != host)

/-- Modelled from the spec: Resolve returns the live connection for host,
none when no entry exists. -/
def registryResolve (reg : Registry) (host : Host) : Option Nat :=
  (reg.find? (fun e => e.1 == host)).map (fun e => e.2)

/-- Modelled from the spec: Invalidate (markHostDead) removes the entry
for host if present; idempotent. -/
def registryInvalidate (reg : Registry) (host : Host) : Registry :=
  reg.filter (fun e => e.1 != host)

/-- AllowedClient: client TLS certificate identity (an opaque comparable
value, a number here) and the URL host routed to the client. Listeners
are not needed by the handshake model. -/
structure AllowedClient where
  id : Nat
  host : Host
deriving DecidableEq

/-- Server.checkID: linear scan of the configured AllowedClients for the
first one whose ID equals the peer identity. -/
def checkID (clients : List AllowedClient) (i : Nat) : Option AllowedClient :=
  clients.find? (fun c => c.id == i)

/-- Oracle inputs for Server.handleClient, one per fallible step: the
peerID certificate extraction (none models an error), the http.NewRequest
error for the synthetic CONNECT probe, the recoverable SetDeadline error,
the connPool.addHostConn error, and the probe result (none models a
transport error of httpClient.Do, some the response status). -/
structure ClientEnv where
  certId : Option Nat := none
  newRequestErr : Bool := false
  setDeadlineErr : Bool := false
  addErr : Bool := false
  probeStatus : Option Nat := none

/-- Result of Server.handleClient: whether the handshake was accepted,
whether the control connection was closed, the registry afterwards, and
the matched AllowedClient host (none when rejection happened before a
client was matched). -/
structure ClientResult where
  accepted : Bool
  connClosed : Bool
  registry : Registry
  matchedHost : Option Host
deriving DecidableEq

/-- The shared reject block of Server.handleClient: close the connection
and, when an AllowedClient had been matched, mark its host dead in the
registry. -/
def rejectResult (reg : Registry) (client : Option AllowedClient) : ClientResult :=
  { accepted := false
    connClosed := true
    registry :=
      match client with
      | some c => registryInvalidate reg c.host
      | none => reg
    matchedHost := client.map (fun c => c.host) }

/-- Server.handleClient from the server source: extract the peer identity,
match it against AllowedClients, build the synthetic CONNECT probe
request, add the connection to the registry, run the probe, and require a
200 status; the first failing step jumps to the reject block (SetDeadline
failure is only logged and recoverable). -/
def Server.handleClient (clients : List AllowedClient) (reg : Registry)
    (conn : Nat) (env : ClientEnv) : ClientResult :=
  match env.certId with
  | none => rejectResult reg none
  | some i =>
    match checkID clients i with
    | none => rejectResult reg none
    | some client =>
      if env.newRequestErr then rejectResult reg (some client)
      else if env.addErr then rejectResult reg (some client)
      else
        match env.probeStatus with
        | none => rejectResult (registryAdd reg client.host conn) (some client)
        | some st =>
          if st != 200 then
            rejectResult (registryAdd reg client.host conn) (some client)
          else
            { accepted := true
              connClosed := false
              registry := registryAdd reg client.host conn
              matchedHost := some client.host }

/-- Models bytealg last index of byte b in l, none when absent. -/
def lastIndexByte (l : List Nat) (b : Nat) : Option Nat :=
  match l.reverse.findIdx? (fun c => c == b) with
  | some i => some (l.length - 1 - i)
  | none => none

/-- Models net.SplitHostPort: the port starts after the last colon (58);
a leading left bracket (91) opens an IPv6 literal closed by the right
bracket (93) that must sit directly before that colon; stray colons or
brackets are errors (none); otherwise (host, port). -/
def splitHostPort (s : List Nat) : Option (List Nat × List Nat) :=
  match lastIndexByte s 58 with
  | none => none
  | some i =>
    if s.headD 0 == 91 then
      match indexByte s 93 with
      | none => none
      | some e =>
        if e + 1 == s.length then none
        else if e + 1 == i then
          if (indexByte (s.drop 1) 91).isSome then none
          else if (indexByte (s.drop (e + 1)) 93).isSome then none
          else some ((s.drop 1).take (e - 1), s.drop (i + 1))
        else none
    else
      if (indexByte (s.take i) 58).isSome then none
      else if (indexByte s 91).isSome then none
      else if (indexByte s 93).isSome then none
      else some (s.take i, s.drop (i + 1))

/-- trimPort from the server source: host, _, _ = net.SplitHostPort; the
error is discarded (the host is then empty) and an empty host falls back
to the whole input. -/
def trimPort (hostPort : List Nat) : List Nat :=
  match splitHostPort hostPort with
  | some (h, _) => if h == [] then hostPort else h
  | none => hostPort

/-- Server.ServeHTTP from the server source: build the ControlMessage
(Action RequestClientSession, Protocol HTTP, ForwardedFor the request
remote address, ForwardedBy the request host, URLPath the request path),
route via proxyHTTP keyed by trimPort of the request host (proxyErr is
the oracle for its transport-level result), and answer 502 on error.
Returns the message, the routing key, and the error status written. -/
def Server.ServeHTTP (r : Request) (proxyErr : Option (List Nat)) :
    ControlMessage × Host × Option Nat :=
  let msg : ControlMessage :=
    { action := Action.requestClientSession
      protocol := Protocol.http
      forwardedFor := r.remoteAddr
      forwardedBy := r.host
      urlPath := r.urlPath }
  match proxyErr with
  | some _ => (msg, trimPort r.host, some 502)
  | none => (msg, trimPort r.host, none)

/-- The accept-error message fragment both loops test for with
strings.Contains. -/
def closedConnMsg : List Nat := ascii ("use of closed network connection")

/-- One accept-loop iteration outcome: a connection was accepted and
handed to a goroutine, or the accept error was logged and the loop
retries, or it was logged and the loop returns. -/
inductive AcceptOutcome
  | handled
  | logAndRetry
  | logAndStop
deriving DecidableEq

/-- One iteration of Server.listenControl: none models a successful
Accept (handleClient is spawned), some an accept error, which is logged
and stops the loop exactly when it mentions the closed-listener text. -/
def Server.listenControlStep (res : Option (List Nat)) : AcceptOutcome :=
  match res with
  | none => AcceptOutcome.handled
  | some err =>
    if goContains closedConnMsg err then AcceptOutcome.logAndStop
    else AcceptOutcome.logAndRetry

/-- One iteration of Server.listen (the per-client public listener loop);
its error handling is textually the same as in listenControl. -/
def Server.listenStep (res : Option (List Nat)) : AcceptOutcome :=
  match res with
  | none => AcceptOutcome.handled
  | some err =>
    if goContains closedConnMsg err then AcceptOutcome.logAndStop
    else AcceptOutcome.logAndRetry

/-- Run an accept loop over a finite schedule of accept results; true iff
the loop returned (terminated) within the schedule. -/
def runAcceptLoop (step : Option (List Nat) → AcceptOutcome) :
    List (Option (List Nat)) → Bool
  | [] => false
  | r :: rest =>
    match step r with
    | AcceptOutcome.logAndStop => true
    | _ => runAcceptLoop step rest

/-- Helper: resolving a host right after invalidating it finds nothing. -/
theorem registryResolve_invalidate (reg : Registry) (h : Host) :
    registryResolve (registryInvalidate reg h) h = none := by
  have hfind : (List.filter (fun e => e.1 != h) reg).find?
      (fun e => e.1 == h) = none := by
    apply List.find?_eq_none.mpr
    intro x hx
    have hne := (List.mem_filter.mp hx).2
    simp only [bne_iff_ne, ne_eq] at hne
    simp [hne]
  simp [registryResolve, registryInvalidate, hfind]

/-- Helper: the shared reject block closes the connection and leaves no
registry entry for the matched host. -/
theorem rejectResult_spec (reg : Registry) (cl : Option AllowedClient) :
    (rejectResult reg cl).connClosed = true ∧
    ∀ h, (rejectResult reg cl).matchedHost = some h →
      registryResolve (rejectResult reg cl).registry h = none := by
  refine ⟨rfl, ?_⟩
  intro h hh
  cases cl with
  | none => simp [rejectResult] at hh
  | some c =>
    simp [rejectResult] at hh
    subst hh
    simpa [rejectResult] using registryResolve_invalidate reg c.host

/-- Claim C2: parseBasicProxyAuth decodes the standard Aladdin example to
its username, password and ok, and answers not-ok with empty username and
password for every input lacking the Basic prefix, every input whose
suffix fails standard base64 decoding, and every input whose decoded form
has no colon byte. -/
theorem parseBasicProxyAuth_spec :
    parseBasicProxyAuth (ascii ("Basic QWxhZGRpbjpvcGVuIHNlc2FtZQ==")) =
      ⟨ascii ("Aladdin"), ascii ("open sesame"), true⟩ ∧
    (∀ s : List Nat, (ascii ("Basic ")).isPrefixOf s = false →
      parseBasicProxyAuth s = ⟨[], [], false⟩) ∧
    (∀ s : List Nat,
      base64StdDecode (s.drop (ascii ("Basic ")).length) = none →
      parseBasicProxyAuth s = ⟨[], [], false⟩) ∧
    (∀ s c : List Nat,
      base64StdDecode (s.drop (ascii ("Basic ")).length) = some c →
      indexByte c 58 = none →
      parseBasicProxyAuth s = ⟨[], [], false⟩) := by
  refine ⟨by decide, ?_, ?_, ?_⟩
  · intro s h
    simp [parseBasicProxyAuth, h]
  · intro s h
    by_cases hp : (ascii ("Basic ")).isPrefixOf s <;>
      simp [parseBasicProxyAuth, hp, h]
  · intro s c h hc
    by_cases hp : (ascii ("Basic ")).isPrefixOf s <;>
      simp [parseBasicProxyAuth, hp, h, hc]

/-- Witness for C2: concrete failing inputs for each hypothesis of the
parseBasicProxyAuth theorem. -/
theorem parseBasicProxyAuth_spec_witness :
    parseBasicProxyAuth (ascii ("NoPrefix")) = ⟨[], [], false⟩ ∧
    parseBasicProxyAuth (ascii ("Basic !!!!")) = ⟨[], [], false⟩ ∧
    parseBasicProxyAuth (ascii ("Basic QWxhZGRpbg==")) = ⟨[], [], false⟩ :=
  ⟨parseBasicProxyAuth_spec.2.1 (ascii ("NoPrefix")) (by decide),
   parseBasicProxyAuth_spec.2.2.1 (ascii ("Basic !!!!")) (by decide),
   parseBasicProxyAuth_spec.2.2.2 (ascii ("Basic QWxhZGRpbg=="))
     (ascii ("Aladdin")) (by decide) (by decide)⟩

/-- Counterexample to claim C1 as stated: a ControlMessage whose protocol
is plain HTTP is rejected by ForwardingProxy.Proxy (it returns before any
write to the sink) even though the stream holds a readable request, so
HTTP is not among the supported values of the protocol switch. -/
theorem Proxy_http_rejected :
    ForwardingProxy.Proxy ({} : ForwardingProxy)
      { wIsResponseWriter := true, readRequest := some ({} : Request) }
      { protocol := Protocol.http } =
    ProxyOutcome.rejectedUnsupportedProto := by decide

/-- Claim C1 amended: the protocol switch of ForwardingProxy.Proxy rejects
(logs and returns without writing to the sink) exactly the messages whose
protocol differs from HTTP-CONNECT; HTTP-CONNECT is the only supported
value. -/
theorem Proxy_unsupported_amended (p : ForwardingProxy) (env : ProxyEnv)
    (msg : ControlMessage) :
    (msg.protocol ≠ Protocol.httpConnect →
      ForwardingProxy.Proxy p env msg = ProxyOutcome.rejectedUnsupportedProto) ∧
    (msg.protocol = Protocol.httpConnect →
      ForwardingProxy.Proxy p env msg ≠ ProxyOutcome.rejectedUnsupportedProto) := by
  constructor
  · intro h
    simp [ForwardingProxy.Proxy, h]
  · intro h
    cases hr : env.readRequest <;> simp [ForwardingProxy.Proxy, h, hr]

/-- Witness for the amended C1 theorem at concrete inputs. -/
theorem Proxy_unsupported_amended_witness :
    ForwardingProxy.Proxy ({} : ForwardingProxy)
      { readRequest := some ({} : Request) } { protocol := Protocol.tcp } =
      ProxyOutcome.rejectedUnsupportedProto ∧
    ForwardingProxy.Proxy ({} : ForwardingProxy)
      { readRequest := some ({} : Request) } { protocol := Protocol.httpConnect } ≠
      ProxyOutcome.rejectedUnsupportedProto :=
  ⟨(Proxy_unsupported_amended _ _ _).1 (by decide),
   (Proxy_unsupported_amended _ _ _).2 rfl⟩

/-- Claim C3: with both proxy credentials configured, a request whose
Proxy-Authorization header is absent, unparsable, or carries a different
user or password is answered with 407 Proxy Authentication Required, and
ServeHTTP returns without forwarding and without tunneling (hence without
dialing). -/
theorem ServeHTTP_auth_required (p : ForwardingProxy) (r : Request)
    (hu : p.authUser ≠ []) (hpw : p.authPass ≠ [])
    (hrej : r.proxyAuthorization = [] ∨
            (parseBasicProxyAuth r.proxyAuthorization).ok = false ∨
            (parseBasicProxyAuth r.proxyAuthorization).username ≠ p.authUser ∨
            (parseBasicProxyAuth r.proxyAuthorization).password ≠ p.authPass) :
    ForwardingProxy.ServeHTTP p r = ServeOutcome.proxyAuthRequired := by
  have hempty : parseBasicProxyAuth ([] : List Nat) = ⟨[], [], false⟩ := by decide
  have hcond : (p.authUser != [] && p.authPass != []) = true := by
    simp [hu, hpw]
  have hr : authRejected p r = true := by
    rcases hrej with h | h | h | h
    · simp [authRejected, h, hempty]
    · simp [authRejected, h]
    · simp [authRejected, h]
    · simp [authRejected, h]
  simp [ForwardingProxy.ServeHTTP, hcond, hr]

/-- Witness for C3: configured credentials and an absent header yield the
407 outcome. -/
theorem ServeHTTP_auth_required_witness :
    ForwardingProxy.ServeHTTP
      { authUser := ascii ("u"), authPass := ascii ("p") } ({} : Request) =
    ServeOutcome.proxyAuthRequired :=
  ServeHTTP_auth_required _ _ (by decide) (by decide) (Or.inl rfl)

/-- Claim C9: when either configured credential is empty no check is done:
ServeHTTP never answers 407, its outcome ignores the Proxy-Authorization
header, and the request is forwarded when the scheme is http and tunneled
otherwise. -/
theorem ServeHTTP_no_credentials (p : ForwardingProxy) (r : Request)
    (pa : List Nat) (h : p.authUser = [] ∨ p.authPass = []) :
    ForwardingProxy.ServeHTTP p r ≠ ServeOutcome.proxyAuthRequired ∧
    ForwardingProxy.ServeHTTP p { r with proxyAuthorization := pa } =
      ForwardingProxy.ServeHTTP p r ∧
    (r.urlScheme = ascii ("http") →
      ForwardingProxy.ServeHTTP p r = ServeOutcome.forwardedHTTP) ∧
    (r.urlScheme ≠ ascii ("http") →
      ForwardingProxy.ServeHTTP p r = ServeOutcome.tunneled) := by
  have hcond : (p.authUser != [] && p.authPass != []) = false := by
    rcases h with h | h <;> simp [h]
  have hserve : ∀ r2 : Request, ForwardingProxy.ServeHTTP p r2 = serveScheme r2 := by
    intro r2
    simp [ForwardingProxy.ServeHTTP, hcond]
  refine ⟨?_, ?_, ?_, ?_⟩
  · rw [hserve]
    by_cases hs : r.urlScheme == ascii ("http") <;> simp [serveScheme, hs]
  · rw [hserve, hserve]
    simp [serveScheme]
  · intro hs
    rw [hserve]
    simp [serveScheme, hs]
  · intro hs
    rw [hserve]
    simp [serveScheme, hs]

/-- Witness for C9: unset credentials with a non-http scheme tunnel the
request whatever the Proxy-Authorization header holds. -/
theorem ServeHTTP_no_credentials_witness :
    ForwardingProxy.ServeHTTP ({} : ForwardingProxy)
        { urlScheme := ascii ("https") } ≠ ServeOutcome.proxyAuthRequired ∧
    ForwardingProxy.ServeHTTP ({} : ForwardingProxy)
        { urlScheme := ascii ("https"), proxyAuthorization := ascii ("Basic zz") } =
      ForwardingProxy.ServeHTTP ({} : ForwardingProxy)
        { urlScheme := ascii ("https") } ∧
    ForwardingProxy.ServeHTTP ({} : ForwardingProxy)
        { urlScheme := ascii ("https") } = ServeOutcome.tunneled := by
  have h := ServeHTTP_no_credentials ({} : ForwardingProxy)
    { urlScheme := ascii ("https") } (ascii ("Basic zz")) (Or.inl rfl)
  exact ⟨h.1, h.2.1, h.2.2.2 (by decide)⟩

/-- Claim C4: whenever Server.handleClient rejects a control connection at
any handshake step, the connection is closed, and whenever an
AllowedClient had been matched its host resolves to nothing in the
resulting registry. -/
theorem handleClient_rejected (clients : List AllowedClient) (reg : Registry)
    (conn : Nat) (env : ClientEnv)
    (hrej : (Server.handleClient clients reg conn env).accepted = false) :
    (Server.handleClient clients reg conn env).connClosed = true ∧
    ∀ h, (Server.handleClient clients reg conn env).matchedHost = some h →
      registryResolve (Server.handleClient clients reg conn env).registry h = none := by
  cases hcid : env.certId with
  | none =>
    have heq : Server.handleClient clients reg conn env = rejectResult reg none := by
      simp [Server.handleClient, hcid]
    rw [heq]
    exact rejectResult_spec _ _
  | some i =>
    cases hc : checkID clients i with
    | none =>
      have heq : Server.handleClient clients reg conn env = rejectResult reg none := by
        simp [Server.handleClient, hcid, hc]
      rw [heq]
      exact rejectResult_spec _ _
    | some client =>
      cases hnr : env.newRequestErr with
      | true =>
        have heq : Server.handleClient clients reg conn env =
            rejectResult reg (some client) := by
          simp [Server.handleClient, hcid, hc, hnr]
        rw [heq]
        exact rejectResult_spec _ _
      | false =>
        cases hae : env.addErr with
        | true =>
          have heq : Server.handleClient clients reg conn env =
              rejectResult reg (some client) := by
            simp [Server.handleClient, hcid, hc, hnr, hae]
          rw [heq]
          exact rejectResult_spec _ _
        | false =>
          cases hps : env.probeStatus with
          | none =>
            have heq : Server.handleClient clients reg conn env =
                rejectResult (registryAdd reg client.host conn) (some client) := by
              simp [Server.handleClient, hcid, hc, hnr, hae, hps]
            rw [heq]
            exact rejectResult_spec _ _
          | some st =>
            cases hst : st != 200 with
            | true =>
              have heq : Server.handleClient clients reg conn env =
                  rejectResult (registryAdd reg client.host conn) (some client) := by
                simp [Server.handleClient, hcid, hc, hnr, hae, hps, hst]
              rw [heq]
              exact rejectResult_spec _ _
            | false =>
              have heq : Server.handleClient clients reg conn env =
                  { accepted := true
                    connClosed := false
                    registry := registryAdd reg client.host conn
                    matchedHost := some client.host } := by
                simp [Server.handleClient, hcid, hc, hnr, hae, hps, hst]
              rw [heq] at hrej
              simp at hrej

/-- Witness for C4: a probe answering 500 is rejected, the connection is
closed, and the host of the matched client resolves to nothing. -/
theorem handleClient_rejected_witness :
    (Server.handleClient [⟨7, ascii ("a.example")⟩] [] 1
        { certId := some 7, probeStatus := some 500 }).connClosed = true ∧
    registryResolve
      (Server.handleClient [⟨7, ascii ("a.example")⟩] [] 1
        { certId := some 7, probeStatus := some 500 }).registry
      (ascii ("a.example")) = none := by
  have h := handleClient_rejected [⟨7, ascii ("a.example")⟩] [] 1
    { certId := some 7, probeStatus := some 500 } (by decide)
  exact ⟨h.1, h.2 (ascii ("a.example")) (by decide)⟩

/-- Claim C5: transfer never fully closes the destination, half-closes it
for writing exactly when supported, half-closes the source for reading
when supported and fully closes it otherwise, and a copy error is only
logged: the non-log effects are identical with and without the error. -/
theorem transfer_close_semantics (side : List Nat) (dst src : TEndpoint)
    (n : Nat) (e : List Nat) (copyErr : Option (List Nat)) :
    TransferEv.closeDstFull ∉ transfer side dst src n copyErr ∧
    (dst.closeWriterCap = true →
      TransferEv.closeWriteDst ∈ transfer side dst src n copyErr) ∧
    (src.closeReaderCap = true →
      TransferEv.closeReadSrc ∈ transfer side dst src n copyErr ∧
      TransferEv.closeSrcFull ∉ transfer side dst src n copyErr) ∧
    (src.closeReaderCap = false →
      TransferEv.closeSrcFull ∈ transfer side dst src n copyErr) ∧
    (transfer side dst src n copyErr).filter (fun ev => !isLogEv ev) =
      (transfer side dst src n none).filter (fun ev => !isLogEv ev) ∧
    TransferEv.logCopyError e ∈ transfer side dst src n (some e) := by
  cases hw : dst.closeWriterCap <;> cases hr : src.closeReaderCap <;>
    cases copyErr <;>
    simp [transfer, isLogEv, hw, hr, List.filter]

/-- Witness for C5 at concrete capabilities: destination with half-close
for writing, source without half-close for reading, with a copy error. -/
theorem transfer_close_semantics_witness :
    TransferEv.closeWriteDst ∈
      transfer (ascii ("side")) ⟨true, false⟩ ⟨false, false⟩ 3
        (some (ascii ("broken pipe"))) ∧
    TransferEv.closeSrcFull ∈
      transfer (ascii ("side")) ⟨true, false⟩ ⟨false, false⟩ 3
        (some (ascii ("broken pipe"))) ∧
    TransferEv.closeDstFull ∉
      transfer (ascii ("side")) ⟨true, false⟩ ⟨false, false⟩ 3
        (some (ascii ("broken pipe"))) := by
  have h := transfer_close_semantics (ascii ("side")) ⟨true, false⟩
    ⟨false, false⟩ 3 (ascii ("broken pipe")) (some (ascii ("broken pipe")))
  exact ⟨h.2.1 rfl, h.2.2.2.1 rfl, h.1⟩

/-- Claim C6: for an accepted CONNECT tunnel with a successful dial, every
linearization of handleTunneling writes the 200 response and the flush
before either relay direction, and closes the destination and the source
only after both directions are done; and the two relay directions are
concurrent: both of their orders occur among the linearizations. -/
theorem handleTunneling_order (r : Request)
    (hm : r.method = ascii ("CONNECT")) :
    (∀ t ∈ traces (ForwardingProxy.handleTunneling r true),
       eventsBefore t (TunnelEv.writeResp 200) TunnelEv.transferDownstream = true ∧
       eventsBefore t (TunnelEv.writeResp 200) TunnelEv.transferUpstream = true ∧
       eventsBefore t TunnelEv.flush TunnelEv.transferDownstream = true ∧
       eventsBefore t TunnelEv.flush TunnelEv.transferUpstream = true ∧
       eventsBefore t TunnelEv.transferDownstream TunnelEv.closeDest = true ∧
       eventsBefore t TunnelEv.transferUpstream TunnelEv.closeDest = true ∧
       eventsBefore t TunnelEv.transferDownstream TunnelEv.closeSrc = true ∧
       eventsBefore t TunnelEv.transferUpstream TunnelEv.closeSrc = true) ∧
    (∃ t ∈ traces (ForwardingProxy.handleTunneling r true),
       eventsBefore t TunnelEv.transferDownstream TunnelEv.transferUpstream = true) ∧
    (∃ t ∈ traces (ForwardingProxy.handleTunneling r true),
       eventsBefore t TunnelEv.transferUpstream TunnelEv.transferDownstream = true) := by
  have heq : ForwardingProxy.handleTunneling r true =
      Proc.seq (Proc.act TunnelEv.setDeadlines)
        (Proc.seq (Proc.act (TunnelEv.writeResp 200))
          (Proc.seq (Proc.act TunnelEv.flush)
            (Proc.seq
              (Proc.par (Proc.act TunnelEv.transferDownstream)
                (Proc.act TunnelEv.transferUpstream))
              (Proc.seq (Proc.act TunnelEv.closeDest)
                (Proc.act TunnelEv.closeSrc))))) := by
    simp [ForwardingProxy.handleTunneling, hm]
  rw [heq]
  decide

/-- Witness for C6 at a concrete CONNECT request. -/
theorem handleTunneling_order_witness :
    (∀ t ∈ traces (ForwardingProxy.handleTunneling
        { method := ascii ("CONNECT") } true),
       eventsBefore t (TunnelEv.writeResp 200) TunnelEv.transferDownstream = true ∧
       eventsBefore t (TunnelEv.writeResp 200) TunnelEv.transferUpstream = true ∧
       eventsBefore t TunnelEv.flush TunnelEv.transferDownstream = true ∧
       eventsBefore t TunnelEv.flush TunnelEv.transferUpstream = true ∧
       eventsBefore t TunnelEv.transferDownstream TunnelEv.closeDest = true ∧
       eventsBefore t TunnelEv.transferUpstream TunnelEv.closeDest = true ∧
       eventsBefore t TunnelEv.transferDownstream TunnelEv.closeSrc = true ∧
       eventsBefore t TunnelEv.transferUpstream TunnelEv.closeSrc = true) ∧
    (∃ t ∈ traces (ForwardingProxy.handleTunneling
        { method := ascii ("CONNECT") } true),
       eventsBefore t TunnelEv.transferDownstream TunnelEv.transferUpstream = true) ∧
    (∃ t ∈ traces (ForwardingProxy.handleTunneling
        { method := ascii ("CONNECT") } true),
       eventsBefore t TunnelEv.transferUpstream TunnelEv.transferDownstream = true) :=
  handleTunneling_order { method := ascii ("CONNECT") } rfl

/-- Claim C7: the Tunnel Server HTTP entry point builds its ControlMessage
with action RequestClientSession, protocol HTTP, forwardedFor the request
remote address, forwardedBy the request host and urlPath the request
path, and answers 502 exactly when proxying reports an error. -/
theorem serverServeHTTP_message (r : Request) (perr : Option (List Nat)) :
    (Server.ServeHTTP r perr).1.action = Action.requestClientSession ∧
    (Server.ServeHTTP r perr).1.protocol = Protocol.http ∧
    (Server.ServeHTTP r perr).1.forwardedFor = r.remoteAddr ∧
    (Server.ServeHTTP r perr).1.forwardedBy = r.host ∧
    (Server.ServeHTTP r perr).1.urlPath = r.urlPath ∧
    (∀ e, perr = some e → (Server.ServeHTTP r perr).2.2 = some 502) ∧
    (perr = none → (Server.ServeHTTP r perr).2.2 = none) := by
  cases perr <;> simp [Server.ServeHTTP]

/-- Witness for C7 at a concrete request with a proxy transport error. -/
theorem serverServeHTTP_message_witness :
    (Server.ServeHTTP
        { host := ascii ("a.example"), remoteAddr := ascii ("1.2.3.4:9"),
          urlPath := ascii ("/x") }
        (some (ascii ("proxy request error")))).1.forwardedBy =
      ascii ("a.example") ∧
    (Server.ServeHTTP
        { host := ascii ("a.example"), remoteAddr := ascii ("1.2.3.4:9"),
          urlPath := ascii ("/x") }
        (some (ascii ("proxy request error")))).2.2 = some 502 := by
  have h := serverServeHTTP_message
    { host := ascii ("a.example"), remoteAddr := ascii ("1.2.3.4:9"),
      urlPath := ascii ("/x") }
    (some (ascii ("proxy request error")))
  exact ⟨h.2.2.2.1, h.2.2.2.2.2.1 (ascii ("proxy request error")) rfl⟩

/-- Helper: a loop whose step stops only on closed-listener errors and
never stops on a successful accept terminates only when its schedule holds
an error mentioning the closed-listener text. -/
theorem runAcceptLoop_stop (step : Option (List Nat) → AcceptOutcome)
    (hstep : ∀ e, step (some e) = AcceptOutcome.logAndStop →
      goContains closedConnMsg e = true)
    (hnone : step none ≠ AcceptOutcome.logAndStop) :
    ∀ inputs, runAcceptLoop step inputs = true →
      ∃ e, some e ∈ inputs ∧ goContains closedConnMsg e = true := by
  intro inputs
  induction inputs with
  | nil => intro h; simp [runAcceptLoop] at h
  | cons r rest ih =>
    intro h
    cases r with
    | none =>
      have hne := hnone
      cases hs : step none with
      | logAndStop => exact absurd hs hne
      | handled =>
        rw [runAcceptLoop, hs] at h
        obtain ⟨e, he, hc⟩ := ih h
        exact ⟨e, List.mem_cons_of_mem _ he, hc⟩
      | logAndRetry =>
        rw [runAcceptLoop, hs] at h
        obtain ⟨e, he, hc⟩ := ih h
        exact ⟨e, List.mem_cons_of_mem _ he, hc⟩
    | some err =>
      cases hs : step (some err) with
      | logAndStop => exact ⟨err, List.mem_cons_self _ _, hstep err hs⟩
      | handled =>
        rw [runAcceptLoop, hs] at h
        obtain ⟨e, he, hc⟩ := ih h
        exact ⟨e, List.mem_cons_of_mem _ he, hc⟩
      | logAndRetry =>
        rw [runAcceptLoop, hs] at h
        obtain ⟨e, he, hc⟩ := ih h
        exact ⟨e, List.mem_cons_of_mem _ he, hc⟩

/-- Claim C8: in both accept loops an error not mentioning the closed
listener is logged and the loop retries, an error mentioning it makes the
loop return, a successful accept is handled and the loop continues, and a
loop that terminated did so only because a closed-listener error arrived. -/
theorem acceptLoop_policy :
    (∀ e, goContains closedConnMsg e = false →
       Server.listenControlStep (some e) = AcceptOutcome.logAndRetry ∧
       Server.listenStep (some e) = AcceptOutcome.logAndRetry) ∧
    (∀ e, goContains closedConnMsg e = true →
       Server.listenControlStep (some e) = AcceptOutcome.logAndStop ∧
       Server.listenStep (some e) = AcceptOutcome.logAndStop) ∧
    Server.listenControlStep none = AcceptOutcome.handled ∧
    Server.listenStep none = AcceptOutcome.handled ∧
    (∀ inputs, runAcceptLoop Server.listenControlStep inputs = true →
       ∃ e, some e ∈ inputs ∧ goContains closedConnMsg e = true) ∧
    (∀ inputs, runAcceptLoop Server.listenStep inputs = true →
       ∃ e, some e ∈ inputs ∧ goContains closedConnMsg e = true) := by
  refine ⟨?_, ?_, rfl, rfl, ?_, ?_⟩
  · intro e h
    constructor <;> simp [Server.listenControlStep, Server.listenStep, h]
  · intro e h
    constructor <;> simp [Server.listenControlStep, Server.listenStep, h]
  · refine runAcceptLoop_stop _ ?_ (by decide)
    intro e h
    by_cases hc : goContains closedConnMsg e = true
    · exact hc
    · simp [Server.listenControlStep, hc] at h
  · refine runAcceptLoop_stop _ ?_ (by decide)
    intro e h
    by_cases hc : goContains closedConnMsg e = true
    · exact hc
    · simp [Server.listenStep, hc] at h

/-- Witness for C8: a closed-listener error stops both loops, a timeout
error only retries, and a loop fed a timeout then the closed error
terminates with that error in its schedule. -/
theorem acceptLoop_policy_witness :
    Server.listenControlStep
      (some (ascii ("accept tcp: use of closed network connection"))) =
      AcceptOutcome.logAndStop ∧
    Server.listenStep (some (ascii ("i/o timeout"))) =
      AcceptOutcome.logAndRetry ∧
    ∃ e, some e ∈ [some (ascii ("i/o timeout")),
        some (ascii ("accept tcp: use of closed network connection"))] ∧
      goContains closedConnMsg e = true :=
  ⟨(acceptLoop_policy.2.1
      (ascii ("accept tcp: use of closed network connection")) (by decide)).1,
   (acceptLoop_policy.1 (ascii ("i/o timeout")) (by decide)).2,
   acceptLoop_policy.2.2.2.2.1
     [some (ascii ("i/o timeout")),
      some (ascii ("accept tcp: use of closed network connection"))]
     (by decide)⟩

/-- Claim C10: trimPort strips the port from every host-port input that
net.SplitHostPort accepts with a nonempty host, returns every input that
does not split unchanged, and therefore the server routing key of a
request for a host with a port equals the key for the bare host. -/
theorem trimPort_spec :
    (∀ s h p : List Nat, splitHostPort s = some (h, p) → h ≠ [] →
       trimPort s = h) ∧
    (∀ s : List Nat, splitHostPort s = none → trimPort s = s) ∧
    trimPort (ascii ("a.example:8080")) = ascii ("a.example") ∧
    trimPort (ascii ("a.example")) = ascii ("a.example") ∧
    (Server.ServeHTTP { host := ascii ("a.example:8080") } none).2.1 =
      (Server.ServeHTTP { host := ascii ("a.example") } none).2.1 := by
  refine ⟨?_, ?_, by decide, by decide, by decide⟩
  · intro s h p hsp hne
    simp [trimPort, hsp, hne]
  · intro s hsp
    simp [trimPort, hsp]

/-- Witness for C10: a concrete split host-port pair and a concrete
non-splitting input. -/
theorem trimPort_spec_witness :
    trimPort (ascii ("h:80")) = ascii ("h") ∧
    trimPort (ascii ("bare")) = ascii ("bare") :=
  ⟨trimPort_spec.1 (ascii ("h:80")) (ascii ("h")) (ascii ("80"))
     (by decide) (by decide),
   trimPort_spec.2.1 (ascii ("bare")) (by decide)⟩

end Tunnel
